import Mathlib

/-!
Verification of the cache-aside analytics serving layer.

Shallow embedding of the core of the `Analytic-Dashboard` repository
(`src/backend/redis_cache.py`, `src/backend/analytics_service.py`,
`src/backend/main.py`, `src/backend/database.py`) and proofs of the
specification claims about it.

Modelling conventions:
* Redis is a key/value store; within one TTL window the live entries are
  an association list `CacheMap` from keys to stored payloads.  `json.dumps`
  never produces the empty string, so the `if data:` truthiness test inside
  `RedisCache.get` succeeds exactly when the key is present; the wire string
  round-trips through `json.loads` to the same JSON value, so the cache is
  modelled as holding the JSON value itself (`JVal`).  The separate
  serialization model (`Scalar`, `encodeScalar`, …) accounts for the
  `default=str` coercion that `json.dumps` applies to `Decimal` and
  `datetime` values.
* Every `try/except` around a Redis call is modelled by a `fail : Bool`
  environment flag: `fail = true` means the underlying Redis operation threw
  and the `except` branch ran.
* The query executor (`execute_with_timeout` plus the `[dict(row) for row in
  result]` conversion) is abstracted as a function `dbRes` from the query
  parameter to the resulting JSON data, together with an invocation counter
  threaded through the orchestrator.
-/

set_option autoImplicit false

/-- A JSON value, as produced by `json.loads` on the Python side.
`jnum` carries JSON integers, `jfloat` JSON floating-point literals
(represented exactly as rationals; only finite literals occur here). -/
inductive JVal where
  | jnull
  | jbool (b : Bool)
  | jnum (n : Int)
  | jfloat (q : ℚ)
  | jstr (s : String)
  | jarr (xs : List JVal)
  | jobj (kvs : List (String × JVal))

/-- Python truthiness (`if cached:`, `x or default`) on JSON-decoded values:
`None`, `False`, `0`, `0.0`, `""`, `[]` and `{}` are falsy. -/
def pyTruthy : JVal → Bool
  | .jnull => false
  | .jbool b => b
  | .jnum n => n != 0
  | .jfloat q => q != 0
  | .jstr s => !s.isEmpty
  | .jarr xs => !xs.isEmpty
  | .jobj kvs => !kvs.isEmpty

/-- The live (non-expired) entries of the Redis keyspace: an association
list from key to stored JSON payload; lookups take the most recent binding. -/
def CacheMap : Type := List (String × JVal)

/-- First-binding lookup in the keyspace. -/
def cacheLookup : CacheMap → String → Option JVal
  | [], _ => none
  | (k, v) :: rest, key => if k = key then some v else cacheLookup rest key

/-- Model of `SETEX`: bind `key` to `v` (shadowing any earlier binding). -/
def cacheBind (st : CacheMap) (key : String) (v : JVal) : CacheMap :=
  (key, v) :: st

/-- Model of `DEL`: remove every binding of `key`. -/
def cacheErase (st : CacheMap) (key : String) : CacheMap :=
  st.filter (fun e => decide (e.1 ≠ key))

/-- Embedding of `RedisCache.get` (redis_cache.py:19-28): returns the decoded payload on a
hit, `None` on a miss, and — via the `try/except` — `None` when the cache
layer fails (`fail = true`). -/
def RedisCache.get (fail : Bool) (st : CacheMap) (key : String) : Option JVal :=
  if fail then none else cacheLookup st key

/-- Embedding of `RedisCache.set` (redis_cache.py:30-37): serializes and stores the value
with a TTL; on a cache-layer failure the `except` branch makes it a no-op. -/
def RedisCache.set (fail : Bool) (st : CacheMap) (key : String) (v : JVal) : CacheMap :=
  if fail then st else cacheBind st key v

/-- Embedding of `RedisCache.delete` (redis_cache.py:39-44): deletes the key; a no-op on a
cache-layer failure. -/
def RedisCache.delete (fail : Bool) (st : CacheMap) (key : String) : CacheMap :=
  if fail then st else cacheErase st key

/-- Integer counters (`INCRBY` operates on integer-valued keys). -/
def CounterMap : Type := List (String × Int)

/-- First-binding lookup among the counters. -/
def counterLookup : CounterMap → String → Option Int
  | [], _ => none
  | (k, v) :: rest, key => if k = key then some v else counterLookup rest key

/-- Embedding of `RedisCache.increment` (redis_cache.py:46-52): atomic `INCRBY` (a missing
key starts at 0) returning the new value; on a cache-layer failure the
`except` branch returns `0` and the counters are untouched. -/
def RedisCache.increment (fail : Bool) (st : CounterMap) (key : String) (amount : Int) :
    Int × CounterMap :=
  if fail then (0, st)
  else
    let v := (counterLookup st key).getD 0 + amount
    (v, (key, v) :: st)

/-- Cache key of the dashboard-metrics operation
(`f"dashboard_metrics:{hours}"`, analytics_service.py:21). -/
def dashboard_cache_key (hours : Int) : String :=
  "dashboard_metrics:" ++ toString hours

/-- Result of one `get_dashboard_metrics` call: the returned value, the cache
state afterwards, and the executor invocation count afterwards. -/
structure DashResult where
  value : JVal
  cache : CacheMap
  execCount : Nat

/-- Embedding of `AnalyticsService.get_dashboard_metrics` (analytics_service.py:15-50).
`dbRes hours` is the data produced by `execute_with_timeout` plus the
row-to-dict conversion; each executor invocation bumps `execCount`.
The hit test is the Python `cached = await cache.get(key); if cached:`:
a hit requires both a present key and a truthy decoded payload. -/
def get_dashboard_metrics (dbRes : Int → JVal) (hours : Int) (use_cache : Bool)
    (getFail setFail : Bool) (st : CacheMap) (execCount : Nat) : DashResult :=
  let ck := dashboard_cache_key hours
  let hit : Option JVal :=
    if use_cache then
      match RedisCache.get getFail st ck with
      | some cached => if pyTruthy cached then some cached else none
      | none => none
    else none
  match hit with
  | some cached => ⟨cached, st, execCount⟩
  | none =>
      let data := dbRes hours
      ⟨data, RedisCache.set setFail st ck data, execCount + 1⟩

/-- Embedding of the `/analytics/dashboard` endpoint (main.py:201-208): FastAPI rejects
`hours` outside `Query(ge=1, le=168)` with a validation error (`none`)
before constructing the service or touching cache/executor; in range it
runs the cache-aside path. -/
def dashboard_endpoint (dbRes : Int → JVal) (hours : Int) (getFail setFail : Bool)
    (st : CacheMap) (execCount : Nat) : Option JVal × CacheMap × Nat :=
  if 1 ≤ hours ∧ hours ≤ 168 then
    let r := get_dashboard_metrics dbRes hours true getFail setFail st execCount
    (some r.value, r.cache, r.execCount)
  else
    (none, st, execCount)

/-- Embedding of `refresh_materialized_views` (database.py:47-57): runs
`SELECT refresh_dashboard_views()` and commits; on a database error it rolls
back and re-raises.  The environment flag `ok` says whether the
recomputation succeeded. -/
def refresh_materialized_views (ok : Bool) : Except String Unit :=
  if ok then .ok () else .error "Failed to refresh materialized views"

/-- One iteration of `periodic_refresh_task` (main.py:66-75): sleep, refresh
the materialized views, then delete `"dashboard_metrics:24"`.  The whole
body sits in `try/except`, so a refresh failure skips the delete and the
loop carries on. -/
def periodic_refresh_iter (refreshOk deleteFail : Bool) (st : CacheMap) : CacheMap :=
  match refresh_materialized_views refreshOk with
  | .ok _ => RedisCache.delete deleteFail st "dashboard_metrics:24"
  | .error _ => st

/-- The `while True` timer loop of `periodic_refresh_task`, run over a finite
schedule of ticks; each tick carries its environment outcome
`(refreshOk, deleteFail)`.  Because every exception is caught, each tick is
processed no matter how the previous ones fared. -/
def periodic_refresh_run : List (Bool × Bool) → CacheMap → CacheMap
  | [], st => st
  | (ok, df) :: ticks, st => periodic_refresh_run ticks (periodic_refresh_iter ok df st)

/-- Embedding of `POST /admin/refresh-views` (main.py:333-340): calls
`refresh_materialized_views()` and returns 200 (`true`) on success or a 500
(`false`) on failure.  It performs no cache operation of its own. -/
def manual_refresh_views (refreshOk : Bool) (st : CacheMap) : CacheMap × Bool :=
  match refresh_materialized_views refreshOk with
  | .ok _ => (st, true)
  | .error _ => (st, false)

/-- The delivery loop of `ConnectionManager.broadcast` (main.py:89-94):
for each connection, `send_json` inside a bare `try/except: pass`.
Observers are identified by `Nat` ids; `sendOk c` says whether delivery to
observer `c` succeeds.  Returns the list of observers actually delivered
to, in registry order. -/
def broadcast_deliveries (sendOk : Nat → Bool) : List Nat → List Nat
  | [] => []
  | c :: rest =>
      if sendOk c then c :: broadcast_deliveries sendOk rest
      else broadcast_deliveries sendOk rest

/-- Embedding of `ConnectionManager.broadcast` (main.py:89-94): attempts delivery to every
registered observer and leaves `active_connections` as it found it — the
`except` branch is `pass`, so no observer is ever removed here.  Returns
`(delivered observers, registry afterwards)`. -/
def broadcast (sendOk : Nat → Bool) (active_connections : List Nat) : List Nat × List Nat :=
  (broadcast_deliveries sendOk active_connections, active_connections)

/-- Cache key of `get_cohort_analysis`
(analytics_service.py:58, an f-string joining the operation name, weeks and
the source): the Python expression `source or "all"` yields `"all"` when
`source` is `None` or the empty
string (both falsy in Python). -/
def cohort_cache_key (weeks : Int) (source : Option String) : String :=
  let src := match source with
    | none => "all"
    | some s => if s.isEmpty then "all" else s
  "cohort_analysis:" ++ toString weeks ++ ":" ++ src

/-- The query `get_cohort_analysis` executes on a miss
(analytics_service.py:64-81): `if source:` selects the
`acquisition_source = :source`-filtered query when `source` is truthy and
the unfiltered query otherwise. -/
inductive CohortQuery where
  | unfiltered (weeks : Int)
  | filtered (weeks : Int) (source : String)
deriving DecidableEq

/-- Which query `get_cohort_analysis(weeks, source)` runs on a cache miss. -/
def cohort_query (weeks : Int) (source : Option String) : CohortQuery :=
  match source with
  | none => .unfiltered weeks
  | some s => if s.isEmpty then .unfiltered weeks else .filtered weeks s

/-- The four realtime metrics assembled by `/analytics/realtime`. -/
structure RealTimeMetrics where
  active_users_now : JVal
  orders_last_hour : JVal
  revenue_last_hour : JVal
  events_per_second : JVal

/-- Python `x or default` applied to a cache read result: the default is
used when the read returned `None` or a falsy value. -/
def pyOr (v : Option JVal) (dflt : JVal) : JVal :=
  match v with
  | some x => if pyTruthy x then x else dflt
  | none => dflt

/-- Embedding of `GET /analytics/realtime` (main.py:247-266): each counter is
`await cache.get(key) or default`, with default `0` for the integer
counters and `0.0` for events per second.  An absent key makes
`cache.get` return `None`, so the `or` supplies the default; no exception
arises, hence the endpoint returns normally. -/
def get_realtime_metrics (getFail : Bool) (st : CacheMap) : RealTimeMetrics :=
  { orders_last_hour := pyOr (RedisCache.get getFail st "orders:last_hour") (.jnum 0)
    revenue_last_hour := pyOr (RedisCache.get getFail st "revenue:last_hour") (.jnum 0)
    active_users_now := pyOr (RedisCache.get getFail st "active_users:now") (.jnum 0)
    events_per_second := pyOr (RedisCache.get getFail st "events:per_second") (.jfloat 0) }

/-- A scalar cell of a query result row, as produced by the executor before
serialization: SQL NULL, booleans, integers, floats, strings, `Decimal`
(carrying its exact string rendering, as `str` produces it) and
`datetime` (likewise carrying its `str` rendering). -/
inductive Scalar where
  | snull
  | sbool (b : Bool)
  | sint (n : Int)
  | sfloat (q : ℚ)
  | sstr (s : String)
  | sdec (s : String)
  | sdt (s : String)
deriving DecidableEq

/-- What `json.dumps(value, default=str)` (redis_cache.py:34) does to one
scalar: JSON-native values pass through, `Decimal` and `datetime` fall back
to `default=str` and become their string renderings. -/
def encodeScalar : Scalar → JVal
  | .snull => .jnull
  | .sbool b => .jbool b
  | .sint n => .jnum n
  | .sfloat q => .jfloat q
  | .sstr s => .jstr s
  | .sdec s => .jstr s
  | .sdt s => .jstr s

/-- What `json.loads` (redis_cache.py:24) yields for one stored scalar cell:
JSON values map back to the corresponding Python scalars; strings stay
strings (no reconstruction of `Decimal`/`datetime` objects happens).
Arrays/objects do not occur in scalar position of an encoded row. -/
def decodeScalar : JVal → Scalar
  | .jnull => .snull
  | .jbool b => .sbool b
  | .jnum n => .sint n
  | .jfloat q => .sfloat q
  | .jstr s => .sstr s
  | .jarr _ => .snull
  | .jobj _ => .snull

/-- A query-result row after `dict(row)`: column name to scalar. -/
def Row : Type := List (String × Scalar)

/-- Serialization of a full result (`[dict(row) for row in result]`) as
performed by `RedisCache.set`. -/
def encodeData (d : List Row) : JVal :=
  .jarr (d.map (fun r => .jobj (r.map (fun kv => (kv.1, encodeScalar kv.2)))))

/-- Deserialization of a stored result as performed by `RedisCache.get` on
payloads in the image of `encodeData`. -/
def decodeData : JVal → List Row
  | .jarr xs => xs.map (fun j =>
      match j with
      | .jobj kvs => kvs.map (fun kv => (kv.1, decodeScalar kv.2))
      | _ => [])
  | _ => []

/-- The coercion the serialization format applies: `Decimal` and `datetime`
become their string renderings, all other scalars are untouched. -/
def normalizeScalar : Scalar → Scalar
  | .sdec s => .sstr s
  | .sdt s => .sstr s
  | x => x

/-- Semantic equivalence of scalars across the serialization boundary: equal,
or a `Decimal`/`datetime` matched with its exact string rendering (from
which the original value is recoverable, e.g. `Decimal(s)`). -/
def scalarEquiv : Scalar → Scalar → Bool
  | .sdec s, .sstr t => s == t
  | .sdt s, .sstr t => s == t
  | a, b => a == b

/-! Basic lemmas about the cache primitives. -/

theorem RedisCache.get_ok (st : CacheMap) (k : String) :
    RedisCache.get false st k = cacheLookup st k := rfl

theorem RedisCache.set_ok (st : CacheMap) (k : String) (v : JVal) :
    RedisCache.set false st k v = cacheBind st k v := rfl

theorem cacheLookup_bind_self (st : CacheMap) (k : String) (v : JVal) :
    cacheLookup (cacheBind st k v) k = some v := by
  simp [cacheBind, cacheLookup]

theorem cacheLookup_erase_self (st : CacheMap) (k : String) :
    cacheLookup (cacheErase st k) k = none := by
  induction st with
  | nil => rfl
  | cons e rest ih =>
      by_cases h : e.1 = k
      · simpa [cacheErase, h] using ih
      · simpa [cacheErase, cacheLookup, h] using ih

/-- On a cache miss the orchestrator executes the query, stores the result
(best-effort) and returns the fresh data. -/
theorem get_dashboard_metrics_miss (dbRes : Int → JVal) (hours : Int)
    (getFail setFail : Bool) (st : CacheMap) (n : Nat)
    (h : RedisCache.get getFail st (dashboard_cache_key hours) = none) :
    get_dashboard_metrics dbRes hours true getFail setFail st n =
      ⟨dbRes hours, RedisCache.set setFail st (dashboard_cache_key hours) (dbRes hours),
        n + 1⟩ := by
  simp [get_dashboard_metrics, h]

/-- On a cache hit with a truthy payload the orchestrator returns the cached
value, leaving the cache and the executor count untouched. -/
theorem get_dashboard_metrics_hit (dbRes : Int → JVal) (hours : Int)
    (setFail : Bool) (st : CacheMap) (n : Nat) (v : JVal)
    (h : cacheLookup st (dashboard_cache_key hours) = some v)
    (hv : pyTruthy v = true) :
    get_dashboard_metrics dbRes hours true false setFail st n = ⟨v, st, n⟩ := by
  simp [get_dashboard_metrics, RedisCache.get, h, hv]

/-- Filter form of the broadcast delivery loop. -/
theorem broadcast_deliveries_eq_filter (sendOk : Nat → Bool) (l : List Nat) :
    broadcast_deliveries sendOk l = l.filter sendOk := by
  induction l with
  | nil => rfl
  | cons c rest ih => by_cases h : sendOk c <;> simp [broadcast_deliveries, h, ih]

/-- C3: a refresh cycle whose aggregate recomputation
(`refresh_materialized_views`) fails deletes no cache key — the cache state
is exactly what it was — and the timer loop survives: the remaining
schedule of ticks is processed exactly as if the failed tick had not
happened, so the next periodic tick still fires and retries. -/
theorem failed_refresh_keeps_cache_and_next_tick_fires
    (deleteFail : Bool) (st : CacheMap) (ticks : List (Bool × Bool)) :
    periodic_refresh_iter false deleteFail st = st ∧
    periodic_refresh_run ((false, deleteFail) :: ticks) st =
      periodic_refresh_run ticks st := by
  exact ⟨rfl, rfl⟩

/-- C4, counterexample: with observers `[1, 2]` where delivery to observer 1
fails and to observer 2 succeeds, observer 2 is still delivered to (the
failure does not block the rest), but observer 1 is NOT removed from the
registry: `active_connections` still equals `[1, 2]` afterwards, so the
claim that every failed observer is removed is false. -/
theorem broadcast_failed_observer_not_removed :
    (broadcast (fun c => c != 1) [1, 2]).1 = [2] ∧
    1 ∈ (broadcast (fun c => c != 1) [1, 2]).2 := by
  exact ⟨rfl, by simp [broadcast]⟩

/-- C4, amended: a delivery failure to one observer does not prevent delivery
to the remaining observers (every observer whose send succeeds receives the
message), but `broadcast` never removes an observer: the registry after the
call is exactly the registry before (removal happens only in `disconnect`,
on `WebSocketDisconnect`). -/
theorem broadcast_delivers_to_rest_keeps_registry
    (sendOk : Nat → Bool) (conns : List Nat) :
    (∀ c, c ∈ conns → sendOk c = true → c ∈ (broadcast sendOk conns).1) ∧
    (broadcast sendOk conns).2 = conns := by
  refine ⟨?_, rfl⟩
  intro c hc hok
  simp [broadcast, broadcast_deliveries_eq_filter, List.mem_filter, hc, hok]

/-- C4, witness for the amended theorem: observer 2 (whose delivery succeeds)
receives the broadcast even though observer 1 fails, and the registry is
unchanged. -/
theorem broadcast_delivers_to_rest_keeps_registry_witness :
    2 ∈ (broadcast (fun c => c != 1) [1, 2]).1 ∧
    (broadcast (fun c => c != 1) [1, 2]).2 = [1, 2] :=
  ⟨(broadcast_delivers_to_rest_keeps_registry (fun c => c != 1) [1, 2]).1 2
      (by decide) (by decide),
    (broadcast_delivers_to_rest_keeps_registry (fun c => c != 1) [1, 2]).2⟩

/-- C5, counterexample: `get_cohort_analysis(12, None)` and
`get_cohort_analysis(12, "all")` derive the same cache key
`"cohort_analysis:12:all"`, yet they do not denote the same query: the
former runs the unfiltered query, the latter the query filtered by
`acquisition_source = "all"`.  So a cache key does not uniquely determine
one operation+parameter combination. -/
theorem cohort_key_collision :
    cohort_cache_key 12 none = cohort_cache_key 12 (some "all") ∧
    cohort_query 12 none ≠ cohort_query 12 (some "all") := by
  exact ⟨rfl, by decide⟩

/-- C5, amended: the cache key is still a deterministic function of
`(operation_name, params)`, but it does not uniquely determine the query:
for every `weeks`, the parameterizations `source = None`, `source = ""` and
`source = "all"` all map to the same key `cohort_analysis:{weeks}:all`,
although the first two select the unfiltered query and the third selects
the source-filtered query — a genuine collision of distinct combinations. -/
theorem cohort_key_collision_characterized (weeks : Int) :
    cohort_cache_key weeks none = cohort_cache_key weeks (some "all") ∧
    cohort_cache_key weeks (some "") = cohort_cache_key weeks (some "all") ∧
    cohort_query weeks none = .unfiltered weeks ∧
    cohort_query weeks (some "") = .unfiltered weeks ∧
    cohort_query weeks (some "all") = .filtered weeks "all" ∧
    cohort_query weeks none ≠ cohort_query weeks (some "all") := by
  refine ⟨rfl, rfl, rfl, rfl, rfl, ?_⟩
  show CohortQuery.unfiltered weeks ≠ CohortQuery.filtered weeks "all"
  simp

/-- C1, counterexample: with an executor whose result is the empty list, the
first `get_dashboard_metrics(24)` call stores its result in the cache (the
key is present, bound to `[]`), yet the second identical call invokes the
executor again (the invocation count goes from 1 to 2) — because the
`if cached:` hit test treats the falsy decoded payload `[]` as a miss.  So
the claim does not hold for every cacheable result. -/
theorem dashboard_second_call_reexecutes_on_empty_result :
    cacheLookup (get_dashboard_metrics (fun _ => .jarr []) 24 true false false [] 0).cache
        (dashboard_cache_key 24) = some (.jarr []) ∧
    (get_dashboard_metrics (fun _ => .jarr []) 24 true false false
        (get_dashboard_metrics (fun _ => .jarr []) 24 true false false [] 0).cache
        (get_dashboard_metrics (fun _ => .jarr []) 24 true false false [] 0).execCount).execCount
      = 2 := by
  exact ⟨rfl, rfl⟩

/-- C1, amended: provided the first call starts from a state without the key
and computes a truthy (non-empty) result, the second identical call returns
exactly the first result without invoking the executor, and leaves the
cache unchanged.  (For a falsy result — e.g. the empty list — the stored
entry is treated as a miss and the executor runs again; see the
counterexample.) -/
theorem dashboard_second_call_served_from_cache
    (dbRes : Int → JVal) (hours : Int) (st : CacheMap) (n : Nat)
    (hmiss : cacheLookup st (dashboard_cache_key hours) = none)
    (htruthy : pyTruthy (dbRes hours) = true) :
    (get_dashboard_metrics dbRes hours true false false
        (get_dashboard_metrics dbRes hours true false false st n).cache
        (get_dashboard_metrics dbRes hours true false false st n).execCount).value
      = (get_dashboard_metrics dbRes hours true false false st n).value ∧
    (get_dashboard_metrics dbRes hours true false false
        (get_dashboard_metrics dbRes hours true false false st n).cache
        (get_dashboard_metrics dbRes hours true false false st n).execCount).execCount
      = (get_dashboard_metrics dbRes hours true false false st n).execCount ∧
    (get_dashboard_metrics dbRes hours true false false
        (get_dashboard_metrics dbRes hours true false false st n).cache
        (get_dashboard_metrics dbRes hours true false false st n).execCount).cache
      = (get_dashboard_metrics dbRes hours true false false st n).cache := by
  have h1 : get_dashboard_metrics dbRes hours true false false st n =
      ⟨dbRes hours, cacheBind st (dashboard_cache_key hours) (dbRes hours), n + 1⟩ :=
    get_dashboard_metrics_miss dbRes hours false false st n
      (by simpa [RedisCache.get] using hmiss)
  have h2 : get_dashboard_metrics dbRes hours true false false
      (cacheBind st (dashboard_cache_key hours) (dbRes hours)) (n + 1) =
      ⟨dbRes hours, cacheBind st (dashboard_cache_key hours) (dbRes hours), n + 1⟩ :=
    get_dashboard_metrics_hit dbRes hours false
      (cacheBind st (dashboard_cache_key hours) (dbRes hours)) (n + 1) (dbRes hours)
      (cacheLookup_bind_self st (dashboard_cache_key hours) (dbRes hours)) htruthy
  rw [h1]
  rw [h2]
  exact ⟨rfl, rfl, rfl⟩

/-- C1, witness for the amended theorem: a concrete non-empty result served
from the cache on the second call, with no further executor invocation. -/
theorem dashboard_second_call_served_from_cache_witness :
    (get_dashboard_metrics (fun _ => .jarr [.jnum 5]) 24 true false false
        (get_dashboard_metrics (fun _ => .jarr [.jnum 5]) 24 true false false [] 0).cache
        (get_dashboard_metrics (fun _ => .jarr [.jnum 5]) 24 true false false [] 0).execCount).value
      = (get_dashboard_metrics (fun _ => .jarr [.jnum 5]) 24 true false false [] 0).value ∧
    (get_dashboard_metrics (fun _ => .jarr [.jnum 5]) 24 true false false
        (get_dashboard_metrics (fun _ => .jarr [.jnum 5]) 24 true false false [] 0).cache
        (get_dashboard_metrics (fun _ => .jarr [.jnum 5]) 24 true false false [] 0).execCount).execCount
      = (get_dashboard_metrics (fun _ => .jarr [.jnum 5]) 24 true false false [] 0).execCount ∧
    (get_dashboard_metrics (fun _ => .jarr [.jnum 5]) 24 true false false
        (get_dashboard_metrics (fun _ => .jarr [.jnum 5]) 24 true false false [] 0).cache
        (get_dashboard_metrics (fun _ => .jarr [.jnum 5]) 24 true false false [] 0).execCount).cache
      = (get_dashboard_metrics (fun _ => .jarr [.jnum 5]) 24 true false false [] 0).cache :=
  dashboard_second_call_served_from_cache (fun _ => .jarr [.jnum 5]) 24 [] 0 rfl rfl

/-- C10: a cached empty-list result is never served.  Even when the cache
entry for the dashboard key is present and bound to `[]`, the hit test
`if cached:` is falsy, so the call executes the query again (invocation
count increases), returns the fresh (empty) result, and re-stores it — the
entry stays present yet is never returned from the cache, within or outside
the TTL window. -/
theorem dashboard_empty_cached_result_never_served
    (dbRes : Int → JVal) (hours : Int) (st : CacheMap) (n : Nat)
    (hempty : dbRes hours = .jarr [])
    (hcached : cacheLookup st (dashboard_cache_key hours) = some (.jarr [])) :
    (get_dashboard_metrics dbRes hours true false false st n).execCount = n + 1 ∧
    (get_dashboard_metrics dbRes hours true false false st n).value = .jarr [] ∧
    cacheLookup (get_dashboard_metrics dbRes hours true false false st n).cache
        (dashboard_cache_key hours) = some (.jarr []) := by
  have h : get_dashboard_metrics dbRes hours true false false st n =
      ⟨dbRes hours, cacheBind st (dashboard_cache_key hours) (dbRes hours), n + 1⟩ := by
    simp [get_dashboard_metrics, RedisCache.get, RedisCache.set, hcached, hempty, pyTruthy]
  rw [h]
  refine ⟨rfl, hempty, ?_⟩
  rw [hempty]
  exact cacheLookup_bind_self st (dashboard_cache_key hours) (.jarr [])

/-- C10, witness: concrete run with the empty entry already present — the
executor still runs once and the entry remains present. -/
theorem dashboard_empty_cached_result_never_served_witness :
    (get_dashboard_metrics (fun _ => .jarr []) 24 true false false
        [(dashboard_cache_key 24, .jarr [])] 0).execCount = 0 + 1 ∧
    (get_dashboard_metrics (fun _ => .jarr []) 24 true false false
        [(dashboard_cache_key 24, .jarr [])] 0).value = .jarr [] ∧
    cacheLookup (get_dashboard_metrics (fun _ => .jarr []) 24 true false false
        [(dashboard_cache_key 24, .jarr [])] 0).cache
        (dashboard_cache_key 24) = some (.jarr []) :=
  dashboard_empty_cached_result_never_served (fun _ => .jarr []) 24
    [(dashboard_cache_key 24, .jarr [])] 0 rfl rfl

/-- C2, counterexample: with `dashboard_metrics:24` cached, a successful
manual refresh (`POST /admin/refresh-views` returns 200) leaves the key
present with its old payload — the endpoint performs no cache invalidation,
unlike the periodic task, so the key is not absent immediately after. -/
theorem manual_refresh_leaves_dependent_key_present :
    (manual_refresh_views true [("dashboard_metrics:24", .jarr [.jnum 1])]).2 = true ∧
    cacheLookup (manual_refresh_views true [("dashboard_metrics:24", .jarr [.jnum 1])]).1
        "dashboard_metrics:24" = some (.jarr [.jnum 1]) := by
  exact ⟨rfl, rfl⟩

/-- C2, amended: the manual refresh endpoint shares
`refresh_materialized_views` with the periodic task but, unlike the
periodic task, performs no cache invalidation: it returns the cache state
unchanged (so `dashboard_metrics:24` keeps whatever binding it had), while
one successful periodic tick does leave the key absent.  A subsequent
`dashboard_metrics(24)` call from a key-absent state makes the key present
again. -/
theorem manual_refresh_no_cache_invalidation
    (refreshOk : Bool) (st : CacheMap) (dbRes : Int → JVal) (n : Nat)
    (habsent : cacheLookup st (dashboard_cache_key 24) = none) :
    (manual_refresh_views refreshOk st).1 = st ∧
    cacheLookup (periodic_refresh_iter true false st) "dashboard_metrics:24" = none ∧
    cacheLookup (get_dashboard_metrics dbRes 24 true false false st n).cache
        (dashboard_cache_key 24) = some (dbRes 24) := by
  refine ⟨?_, ?_, ?_⟩
  · cases refreshOk <;> rfl
  · exact cacheLookup_erase_self st "dashboard_metrics:24"
  · rw [get_dashboard_metrics_miss dbRes 24 false false st n
      (by simpa [RedisCache.get] using habsent)]
    exact cacheLookup_bind_self st (dashboard_cache_key 24) (dbRes 24)

/-- C2, witness for the amended theorem, at an empty cache and a concrete
non-empty dashboard result. -/
theorem manual_refresh_no_cache_invalidation_witness :
    (manual_refresh_views true ([] : CacheMap)).1 = ([] : CacheMap) ∧
    cacheLookup (periodic_refresh_iter true false ([] : CacheMap))
        "dashboard_metrics:24" = none ∧
    cacheLookup (get_dashboard_metrics (fun _ => .jarr [.jnum 7]) 24 true false false
        ([] : CacheMap) 0).cache (dashboard_cache_key 24) = some (.jarr [.jnum 7]) :=
  manual_refresh_no_cache_invalidation true [] (fun _ => .jarr [.jnum 7]) 0 rfl

/-- C6: every cache-layer operation absorbs its failures.  With the failure
flag set, `get` returns `None` (a miss), `set` and `delete` leave the store
unchanged, `increment` returns `0` and changes nothing; a failed `get`
inside the orchestrator degrades to a miss (the query executes and the
fresh result is returned), and a failed cache write during the cache-aside
path still returns the freshly computed result to the caller. -/
theorem cache_layer_failures_absorbed
    (st : CacheMap) (ctrs : CounterMap) (k : String) (v : JVal) (amt : Int)
    (dbRes : Int → JVal) (hours : Int) (n : Nat) :
    RedisCache.get true st k = none ∧
    RedisCache.set true st k v = st ∧
    RedisCache.delete true st k = st ∧
    RedisCache.increment true ctrs k amt = (0, ctrs) ∧
    ((get_dashboard_metrics dbRes hours true true false st n).value = dbRes hours ∧
      (get_dashboard_metrics dbRes hours true true false st n).execCount = n + 1) ∧
    (cacheLookup st (dashboard_cache_key hours) = none →
      (get_dashboard_metrics dbRes hours true false true st n).value = dbRes hours ∧
      (get_dashboard_metrics dbRes hours true false true st n).cache = st) := by
  refine ⟨rfl, rfl, rfl, rfl, ⟨?_, ?_⟩, ?_⟩
  · rw [get_dashboard_metrics_miss dbRes hours true false st n rfl]
  · rw [get_dashboard_metrics_miss dbRes hours true false st n rfl]
  · intro hmiss
    rw [get_dashboard_metrics_miss dbRes hours false true st n
      (by simpa [RedisCache.get] using hmiss)]
    exact ⟨rfl, rfl⟩

/-- C6, witness: the failure-absorption facts at concrete inputs, including
the best-effort write (set failure) still returning the fresh result. -/
theorem cache_layer_failures_absorbed_witness :
    RedisCache.get true ([] : CacheMap) "k" = none ∧
    RedisCache.set true ([] : CacheMap) "k" (.jnum 1) = ([] : CacheMap) ∧
    RedisCache.delete true ([] : CacheMap) "k" = ([] : CacheMap) ∧
    RedisCache.increment true ([] : CounterMap) "k" 3 = (0, ([] : CounterMap)) ∧
    ((get_dashboard_metrics (fun _ => .jarr [.jnum 2]) 24 true true false [] 0).value
        = .jarr [.jnum 2] ∧
      (get_dashboard_metrics (fun _ => .jarr [.jnum 2]) 24 true true false [] 0).execCount
        = 0 + 1) ∧
    ((get_dashboard_metrics (fun _ => .jarr [.jnum 2]) 24 true false true [] 0).value
        = .jarr [.jnum 2] ∧
      (get_dashboard_metrics (fun _ => .jarr [.jnum 2]) 24 true false true [] 0).cache
        = ([] : CacheMap)) := by
  have h := cache_layer_failures_absorbed [] [] "k" (.jnum 1) 3
    (fun _ => .jarr [.jnum 2]) 24 0
  exact ⟨h.1, h.2.1, h.2.2.1, h.2.2.2.1, h.2.2.2.2.1, h.2.2.2.2.2 rfl⟩

/-- C7: storing a query result and reading it back round-trips to a
semantically equivalent value.  The read returns exactly the stored JSON
payload; deserializing it yields the original result up to the coercion the
serialization format applies — `Decimal` and `datetime` cells come back as
their exact string renderings (`normalizeScalar`), and every scalar is
semantically equivalent to its normalization (the original is recoverable
from the string, e.g. decimal-to-string-to-decimal). -/
theorem serialization_roundtrip_semantically_equivalent
    (d : List Row) (st : CacheMap) (key : String) :
    RedisCache.get false (RedisCache.set false st key (encodeData d)) key
      = some (encodeData d) ∧
    decodeData (encodeData d)
      = d.map (fun r => r.map (fun kv => (kv.1, normalizeScalar kv.2))) ∧
    (∀ s : Scalar, scalarEquiv s (normalizeScalar s) = true) := by
  have hsc : ∀ s : Scalar, decodeScalar (encodeScalar s) = normalizeScalar s := by
    intro s; cases s <;> rfl
  refine ⟨?_, ?_, ?_⟩
  · rw [RedisCache.get_ok, RedisCache.set_ok]
    exact cacheLookup_bind_self st key (encodeData d)
  · simp [decodeData, encodeData, List.map_map, Function.comp_def, hsc]
  · intro s; cases s <;> simp [scalarEquiv, normalizeScalar]

/-- C8: the dashboard endpoint rejects `hours` outside `[1, 168]` with a
validation error before any cache lookup or query execution — the cache
state and the executor invocation count are returned untouched — and for
`hours` inside `[1, 168]` it proceeds to the cache-aside path
(`get_dashboard_metrics` with caching enabled). -/
theorem dashboard_hours_bounds_enforced
    (dbRes : Int → JVal) (hours : Int) (getFail setFail : Bool)
    (st : CacheMap) (n : Nat) :
    (¬(1 ≤ hours ∧ hours ≤ 168) →
      dashboard_endpoint dbRes hours getFail setFail st n = (none, st, n)) ∧
    ((1 ≤ hours ∧ hours ≤ 168) →
      dashboard_endpoint dbRes hours getFail setFail st n =
        (some (get_dashboard_metrics dbRes hours true getFail setFail st n).value,
          (get_dashboard_metrics dbRes hours true getFail setFail st n).cache,
          (get_dashboard_metrics dbRes hours true getFail setFail st n).execCount)) := by
  constructor <;> intro h <;> simp [dashboard_endpoint, h]

/-- C8, witness: `hours = 200` is rejected with no state change and no
execution, while `hours = 24` runs the cache-aside path (here: a miss that
executes once and populates the cache). -/
theorem dashboard_hours_bounds_enforced_witness :
    dashboard_endpoint (fun _ => .jarr [.jnum 3]) 200 false false [] 0 = (none, [], 0) ∧
    dashboard_endpoint (fun _ => .jarr [.jnum 3]) 24 false false [] 0 =
      (some (.jarr [.jnum 3]), [(dashboard_cache_key 24, .jarr [.jnum 3])], 1) := by
  constructor
  · exact (dashboard_hours_bounds_enforced (fun _ => .jarr [.jnum 3]) 200
      false false [] 0).1 (by decide)
  · rw [(dashboard_hours_bounds_enforced (fun _ => .jarr [.jnum 3]) 24
      false false [] 0).2 (by decide)]
    rfl

/-- C9: when the four realtime counter keys are absent from the cache, the
realtime-metrics read succeeds and yields the defined defaults — `0` for
the integer counters (active users, last-hour orders and revenue) and `0.0`
for events per second — rather than an error. -/
theorem realtime_absent_keys_yield_defaults
    (st : CacheMap)
    (h1 : cacheLookup st "orders:last_hour" = none)
    (h2 : cacheLookup st "revenue:last_hour" = none)
    (h3 : cacheLookup st "active_users:now" = none)
    (h4 : cacheLookup st "events:per_second" = none) :
    get_realtime_metrics false st =
      { active_users_now := .jnum 0
        orders_last_hour := .jnum 0
        revenue_last_hour := .jnum 0
        events_per_second := .jfloat 0 } := by
  simp [get_realtime_metrics, RedisCache.get, pyOr, h1, h2, h3, h4]

/-- C9, witness: the empty cache has none of the counter keys, and the read
returns the defaults. -/
theorem realtime_absent_keys_yield_defaults_witness :
    get_realtime_metrics false ([] : CacheMap) =
      { active_users_now := .jnum 0
        orders_last_hour := .jnum 0
        revenue_last_hour := .jnum 0
        events_per_second := .jfloat 0 } :=
  realtime_absent_keys_yield_defaults [] rfl rfl rfl rfl
